import Mathlib

/-!
Shallow embedding of `torch/ao/quantization/qconfig_mapping.py`.

The source is dynamically typed Python.  We model the Python values the
module manipulates with a small universe `PyVal A`:

* `PyVal.none`  — Python's `None` (the initial `global_qconfig`, and the
  value of `QConfigAny` when unset);
* `PyVal.atom`  — an opaque Python object (a QConfig, a module class, a
  function, ...); the registry never inspects these, so they are drawn from
  an arbitrary type parameter `A`;
* `PyVal.str` / `PyVal.int` — strings and integers (module names, regex
  patterns, occurrence indices);
* `PyVal.tuple` / `PyVal.list` — Python tuples and lists.

Dataclass field annotations (`str`, `int`, `Callable`) are not enforced by
Python at runtime, and `from_dict` performs no validation, so every entry
field is modelled as `PyVal A`.

`to_dict` returns a Python `Dict[str, Any]`; we model it as an association
list `PyDict A` with string keys, looked up with Python's `in` operator
(`dictContains`) and `dict.get(key, default)` (`dictGetD`).

Python's `for a, b in xs` both iterates `xs` and destructures each element;
iteration of a non-iterable, or destructuring an element of the wrong
length, raises at runtime.  `from_dict` is therefore embedded in
`Except String`, with `pyIter` modelling `iter(...)` (lists, tuples and
strings are iterable; iterating a string yields its one-character strings)
and `pyUnpack2` / `pyUnpack4` modelling tuple destructuring.
-/

/-- A Python runtime value, as far as this module can observe it.
`A` is the type of opaque atoms (QConfigs, module classes, functions). -/
inductive PyVal (A : Type) where
  | none : PyVal A
  | atom : A → PyVal A
  | str : String → PyVal A
  | int : Int → PyVal A
  | tuple : List (PyVal A) → PyVal A
  | list : List (PyVal A) → PyVal A

/-- A Python `Dict[str, Any]` in insertion order. -/
abbrev PyDict (A : Type) := List (String × PyVal A)

/-- Python's `key in dict`. -/
def dictContains {A : Type} (d : PyDict A) (k : String) : Bool :=
  d.any (fun p => p.1 == k)

/-- Python's `dict.get(key, default)` (and `dict[key]` when the key is
known to be present). -/
def dictGetD {A : Type} (d : PyDict A) (k : String) (default : PyVal A) : PyVal A :=
  match d.find? (fun p => p.1 == k) with
  | some p => p.2
  | Option.none => default

/-- Python's `iter(...)`: lists and tuples yield their elements, a string
yields its characters as one-character strings; other values raise
`TypeError`. -/
def pyIter {A : Type} : PyVal A → Except String (List (PyVal A))
  | .list l => .ok l
  | .tuple l => .ok l
  | .str s => .ok (s.toList.map (fun c => .str (String.mk [c])))
  | _ => .error "TypeError: cannot unpack non-iterable object"

/-- Python's two-target destructuring `a, b = v`. -/
def pyUnpack2 {A : Type} (v : PyVal A) : Except String (PyVal A × PyVal A) :=
  match pyIter v with
  | .error e => .error e
  | .ok [a, b] => .ok (a, b)
  | .ok _ => .error "ValueError: wrong number of values to unpack (expected 2)"

/-- Python's four-target destructuring `a, b, c, d = v`. -/
def pyUnpack4 {A : Type} (v : PyVal A) :
    Except String (PyVal A × PyVal A × PyVal A × PyVal A) :=
  match pyIter v with
  | .error e => .error e
  | .ok [a, b, c, d] => .ok (a, b, c, d)
  | .ok _ => .error "ValueError: wrong number of values to unpack (expected 4)"

/-- Source constant `GLOBAL_DICT_KEY = ""`. -/
def GLOBAL_DICT_KEY : String := ""

/-- Source constant `OBJECT_TYPE_DICT_KEY = "object_type"`. -/
def OBJECT_TYPE_DICT_KEY : String := "object_type"

/-- Source constant `MODULE_NAME_REGEX_DICT_KEY = "module_name_regex"`. -/
def MODULE_NAME_REGEX_DICT_KEY : String := "module_name_regex"

/-- Source constant `MODULE_NAME_DICT_KEY = "module_name"`. -/
def MODULE_NAME_DICT_KEY : String := "module_name"

/-- Source constant `MODULE_NAME_OBJECT_TYPE_ORDER_DICT_KEY = "module_name_object_type_order"`. -/
def MODULE_NAME_OBJECT_TYPE_ORDER_DICT_KEY : String := "module_name_object_type_order"

/-- Dataclass `QConfigObjectTypeEntry`: fields `object_type`,
`qconfig`, in declaration order.  The annotations (`Union[Callable, str]`,
`QConfigAny`) are unenforced, so both fields are `PyVal A`. -/
structure QConfigObjectTypeEntry (A : Type) where
  object_type : PyVal A
  qconfig : PyVal A

/-- Dataclass `QConfigModuleNameRegexEntry`: fields
`module_name_regex`, `qconfig`, in declaration order. -/
structure QConfigModuleNameRegexEntry (A : Type) where
  module_name_regex : PyVal A
  qconfig : PyVal A

/-- Dataclass `QConfigModuleNameEntry`: fields `module_name`,
`qconfig`, in declaration order. -/
structure QConfigModuleNameEntry (A : Type) where
  module_name : PyVal A
  qconfig : PyVal A

/-- Dataclass `QConfigModuleNameObjectTypeOrderEntry`: fields
`module_name`, `object_type`, `index`, `qconfig`, in declaration order. -/
structure QConfigModuleNameObjectTypeOrderEntry (A : Type) where
  module_name : PyVal A
  object_type : PyVal A
  index : PyVal A
  qconfig : PyVal A

/-- Method `to_dict`'s inner `to_tuple_list` applied to one entry:
`tuple([getattr(e, f.name) for f in fields(e)])`, i.e. the dataclass
fields in declaration order. -/
def QConfigObjectTypeEntry.toTuple {A : Type} (e : QConfigObjectTypeEntry A) : PyVal A :=
  .tuple [e.object_type, e.qconfig]

/-- Dataclass fields of a `QConfigModuleNameRegexEntry` in declaration
order, as one Python tuple. -/
def QConfigModuleNameRegexEntry.toTuple {A : Type} (e : QConfigModuleNameRegexEntry A) : PyVal A :=
  .tuple [e.module_name_regex, e.qconfig]

/-- Dataclass fields of a `QConfigModuleNameEntry` in declaration order,
as one Python tuple. -/
def QConfigModuleNameEntry.toTuple {A : Type} (e : QConfigModuleNameEntry A) : PyVal A :=
  .tuple [e.module_name, e.qconfig]

/-- Dataclass fields of a `QConfigModuleNameObjectTypeOrderEntry` in
declaration order, as one Python tuple. -/
def QConfigModuleNameObjectTypeOrderEntry.toTuple {A : Type}
    (e : QConfigModuleNameObjectTypeOrderEntry A) : PyVal A :=
  .tuple [e.module_name, e.object_type, e.index, e.qconfig]

/-- The state of a `QConfigMapping` object: the eight attributes assigned
in `__init__`, in declaration order.  The last three `OrderedDict`
attributes exist only "For mypy warnings"; no method of the class reads or
writes them after `__init__`, so they stay empty in every reachable
object. -/
structure QConfigMapping (A : Type) where
  global_qconfig : PyVal A
  object_type_qconfigs : List (QConfigObjectTypeEntry A)
  module_name_regex_qconfigs : List (QConfigModuleNameRegexEntry A)
  module_name_qconfigs : List (QConfigModuleNameEntry A)
  module_name_object_type_order_qconfigs : List (QConfigModuleNameObjectTypeOrderEntry A)
  _object_type_qconfig_dict : List (PyVal A × PyVal A)
  _module_name_regex_qconfig_dict : List (PyVal A × PyVal A)
  _module_name_qconfig_dict : List (PyVal A × PyVal A)

namespace QConfigMapping

variable {A : Type}

/-- Constructor `QConfigMapping.__init__`: global unset (`None`), all lists and the
three mypy-only dicts empty. -/
def init : QConfigMapping A :=
  { global_qconfig := .none
    object_type_qconfigs := []
    module_name_regex_qconfigs := []
    module_name_qconfigs := []
    module_name_object_type_order_qconfigs := []
    _object_type_qconfig_dict := []
    _module_name_regex_qconfig_dict := []
    _module_name_qconfig_dict := [] }

/-- Method `set_global`: `self.global_qconfig = global_qconfig; return self`.
The returned registry is the post-state of `self`. -/
def set_global (c : QConfigMapping A) (global_qconfig : PyVal A) : QConfigMapping A :=
  { c with global_qconfig := global_qconfig }

/-- Method `set_object_type`:
`self.object_type_qconfigs.append(QConfigObjectTypeEntry(object_type, qconfig)); return self`. -/
def set_object_type (c : QConfigMapping A) (object_type qconfig : PyVal A) :
    QConfigMapping A :=
  { c with object_type_qconfigs :=
      c.object_type_qconfigs ++ [⟨object_type, qconfig⟩] }

/-- Method `set_module_name_regex`:
`self.module_name_regex_qconfigs.append(QConfigModuleNameRegexEntry(module_name_regex, qconfig)); return self`. -/
def set_module_name_regex (c : QConfigMapping A) (module_name_regex qconfig : PyVal A) :
    QConfigMapping A :=
  { c with module_name_regex_qconfigs :=
      c.module_name_regex_qconfigs ++ [⟨module_name_regex, qconfig⟩] }

/-- Method `set_module_name`:
`self.module_name_qconfigs.append(QConfigModuleNameEntry(module_name, qconfig)); return self`. -/
def set_module_name (c : QConfigMapping A) (module_name qconfig : PyVal A) :
    QConfigMapping A :=
  { c with module_name_qconfigs :=
      c.module_name_qconfigs ++ [⟨module_name, qconfig⟩] }

/-- Method `set_module_name_object_type_order`: appends a
`QConfigModuleNameObjectTypeOrderEntry(module_name, object_type, index, qconfig)`
and returns `self`. -/
def set_module_name_object_type_order (c : QConfigMapping A)
    (module_name object_type index qconfig : PyVal A) : QConfigMapping A :=
  { c with module_name_object_type_order_qconfigs :=
      c.module_name_object_type_order_qconfigs ++
        [⟨module_name, object_type, index, qconfig⟩] }

/-- Method `to_dict`: builds the five-key dictionary, in the literal's key order;
each list attribute goes through `to_tuple_list` (modelled per entry by
`toTuple`), and the global key carries `self.global_qconfig` as-is. -/
def to_dict (c : QConfigMapping A) : PyDict A :=
  [ (GLOBAL_DICT_KEY, c.global_qconfig),
    (OBJECT_TYPE_DICT_KEY, .list (c.object_type_qconfigs.map QConfigObjectTypeEntry.toTuple)),
    (MODULE_NAME_REGEX_DICT_KEY,
      .list (c.module_name_regex_qconfigs.map QConfigModuleNameRegexEntry.toTuple)),
    (MODULE_NAME_DICT_KEY, .list (c.module_name_qconfigs.map QConfigModuleNameEntry.toTuple)),
    (MODULE_NAME_OBJECT_TYPE_ORDER_DICT_KEY,
      .list (c.module_name_object_type_order_qconfigs.map
        QConfigModuleNameObjectTypeOrderEntry.toTuple)) ]

/-- State-passing rendering of the `to_dict` method call: the method body
only reads `self`'s attributes (via `getattr`) and builds fresh lists and
a fresh dict; it contains no assignment to `self`, so the receiver after
the call is the receiver before it. -/
def to_dict_st (c : QConfigMapping A) : PyDict A × QConfigMapping A :=
  (c.to_dict, c)

/-- The loop `for object_type, qconfig in ...: conf.set_object_type(object_type, qconfig)`
over the already-obtained iterator elements. -/
def addObjectTypeEntries : List (PyVal A) → QConfigMapping A → Except String (QConfigMapping A)
  | [], c => .ok c
  | item :: rest, c =>
    match pyUnpack2 item with
    | .error e => .error e
    | .ok (object_type, qconfig) => addObjectTypeEntries rest (c.set_object_type object_type qconfig)

/-- The loop `for module_name_regex, qconfig in ...: conf.set_module_name_regex(...)`. -/
def addModuleNameRegexEntries : List (PyVal A) → QConfigMapping A → Except String (QConfigMapping A)
  | [], c => .ok c
  | item :: rest, c =>
    match pyUnpack2 item with
    | .error e => .error e
    | .ok (module_name_regex, qconfig) =>
      addModuleNameRegexEntries rest (c.set_module_name_regex module_name_regex qconfig)

/-- The loop `for module_name, qconfig in ...: conf.set_module_name(...)`. -/
def addModuleNameEntries : List (PyVal A) → QConfigMapping A → Except String (QConfigMapping A)
  | [], c => .ok c
  | item :: rest, c =>
    match pyUnpack2 item with
    | .error e => .error e
    | .ok (module_name, qconfig) => addModuleNameEntries rest (c.set_module_name module_name qconfig)

/-- The loop `for module_name, object_type, index, qconfig in ...:
conf.set_module_name_object_type_order(...)`. -/
def addModuleNameObjectTypeOrderEntries :
    List (PyVal A) → QConfigMapping A → Except String (QConfigMapping A)
  | [], c => .ok c
  | item :: rest, c =>
    match pyUnpack4 item with
    | .error e => .error e
    | .ok (module_name, object_type, index, qconfig) =>
      addModuleNameObjectTypeOrderEntries rest
        (c.set_module_name_object_type_order module_name object_type index qconfig)

/-- Classmethod `from_dict`: starts from `cls()`, sets the global config if the `""`
key is present, then replays the four loops over
`qconfig_dict.get(KEY, [])` in source order.  Each loop step may raise
while iterating or destructuring, hence the `Except`. -/
def from_dict (qconfig_dict : PyDict A) : Except String (QConfigMapping A) := do
  let conf : QConfigMapping A := init
  let conf :=
    if dictContains qconfig_dict GLOBAL_DICT_KEY then
      conf.set_global (dictGetD qconfig_dict GLOBAL_DICT_KEY .none)
    else conf
  let items ← pyIter (dictGetD qconfig_dict OBJECT_TYPE_DICT_KEY (.list []))
  let conf ← addObjectTypeEntries items conf
  let items ← pyIter (dictGetD qconfig_dict MODULE_NAME_REGEX_DICT_KEY (.list []))
  let conf ← addModuleNameRegexEntries items conf
  let items ← pyIter (dictGetD qconfig_dict MODULE_NAME_DICT_KEY (.list []))
  let conf ← addModuleNameEntries items conf
  let items ← pyIter (dictGetD qconfig_dict MODULE_NAME_OBJECT_TYPE_ORDER_DICT_KEY (.list []))
  let conf ← addModuleNameObjectTypeOrderEntries items conf
  return conf

end QConfigMapping

/-! ### Helper lemmas -/

/-- Binding a successful `Except` computation just applies the continuation. -/
theorem except_bind_ok {α β : Type} (a : α) (f : α → Except String β) :
    Except.bind (Except.ok a) f = f a := rfl

/-- If every continuation of a bind fails, the bind fails. -/
theorem exists_error_bind {α β : Type} {x : Except String α} {f : α → Except String β}
    (h : ∀ a, ∃ e, f a = Except.error e) : ∃ e, Except.bind x f = Except.error e := by
  cases x with
  | error e => exact ⟨e, rfl⟩
  | ok a => exact h a

/-- If the first computation of a bind fails, the bind fails. -/
theorem exists_error_bind_left {α β : Type} (f : α → Except String β) {x : Except String α}
    (h : ∃ e, x = Except.error e) : ∃ e, Except.bind x f = Except.error e := by
  obtain ⟨e, he⟩ := h
  exact ⟨e, by rw [he]; rfl⟩

namespace QConfigMapping

/-- Replaying the serialized form of an `object_type` entry list appends
exactly those entries, leaving all other fields unchanged. -/
theorem addObjectTypeEntries_map_toTuple {A : Type} (l : List (QConfigObjectTypeEntry A))
    (c : QConfigMapping A) :
    addObjectTypeEntries (l.map QConfigObjectTypeEntry.toTuple) c =
      .ok { c with object_type_qconfigs := c.object_type_qconfigs ++ l } := by
  induction l generalizing c with
  | nil => simp [addObjectTypeEntries]
  | cons e rest ih =>
    simp [addObjectTypeEntries, pyUnpack2, pyIter, QConfigObjectTypeEntry.toTuple,
      set_object_type, ih]

/-- Replaying the serialized form of a `module_name_regex` entry list appends
exactly those entries, leaving all other fields unchanged. -/
theorem addModuleNameRegexEntries_map_toTuple {A : Type}
    (l : List (QConfigModuleNameRegexEntry A)) (c : QConfigMapping A) :
    addModuleNameRegexEntries (l.map QConfigModuleNameRegexEntry.toTuple) c =
      .ok { c with module_name_regex_qconfigs := c.module_name_regex_qconfigs ++ l } := by
  induction l generalizing c with
  | nil => simp [addModuleNameRegexEntries]
  | cons e rest ih =>
    simp [addModuleNameRegexEntries, pyUnpack2, pyIter, QConfigModuleNameRegexEntry.toTuple,
      set_module_name_regex, ih]

/-- Replaying the serialized form of a `module_name` entry list appends
exactly those entries, leaving all other fields unchanged. -/
theorem addModuleNameEntries_map_toTuple {A : Type} (l : List (QConfigModuleNameEntry A))
    (c : QConfigMapping A) :
    addModuleNameEntries (l.map QConfigModuleNameEntry.toTuple) c =
      .ok { c with module_name_qconfigs := c.module_name_qconfigs ++ l } := by
  induction l generalizing c with
  | nil => simp [addModuleNameEntries]
  | cons e rest ih =>
    simp [addModuleNameEntries, pyUnpack2, pyIter, QConfigModuleNameEntry.toTuple,
      set_module_name, ih]

/-- Replaying the serialized form of a `module_name_object_type_order` entry
list appends exactly those entries, leaving all other fields unchanged. -/
theorem addModuleNameObjectTypeOrderEntries_map_toTuple {A : Type}
    (l : List (QConfigModuleNameObjectTypeOrderEntry A)) (c : QConfigMapping A) :
    addModuleNameObjectTypeOrderEntries (l.map QConfigModuleNameObjectTypeOrderEntry.toTuple) c =
      .ok { c with module_name_object_type_order_qconfigs :=
        c.module_name_object_type_order_qconfigs ++ l } := by
  induction l generalizing c with
  | nil => simp [addModuleNameObjectTypeOrderEntries]
  | cons e rest ih =>
    simp [addModuleNameObjectTypeOrderEntries, pyUnpack4, pyIter,
      QConfigModuleNameObjectTypeOrderEntry.toTuple, set_module_name_object_type_order, ih]

/-- Repeated `set_object_type` calls append their entries in call order and
touch no other field. -/
theorem foldl_set_object_type {A : Type} (c : QConfigMapping A)
    (es : List (PyVal A × PyVal A)) :
    es.foldl (fun acc p => acc.set_object_type p.1 p.2) c =
      { c with object_type_qconfigs :=
          c.object_type_qconfigs ++ es.map (fun p => ⟨p.1, p.2⟩) } := by
  induction es generalizing c with
  | nil => simp
  | cons p rest ih =>
    rw [List.foldl_cons, ih]
    simp [set_object_type, List.append_assoc]

/-- Repeated `set_module_name_regex` calls append their entries in call order
and touch no other field. -/
theorem foldl_set_module_name_regex {A : Type} (c : QConfigMapping A)
    (es : List (PyVal A × PyVal A)) :
    es.foldl (fun acc p => acc.set_module_name_regex p.1 p.2) c =
      { c with module_name_regex_qconfigs :=
          c.module_name_regex_qconfigs ++ es.map (fun p => ⟨p.1, p.2⟩) } := by
  induction es generalizing c with
  | nil => simp
  | cons p rest ih =>
    rw [List.foldl_cons, ih]
    simp [set_module_name_regex, List.append_assoc]

/-- Repeated `set_module_name` calls append their entries in call order and
touch no other field. -/
theorem foldl_set_module_name {A : Type} (c : QConfigMapping A)
    (es : List (PyVal A × PyVal A)) :
    es.foldl (fun acc p => acc.set_module_name p.1 p.2) c =
      { c with module_name_qconfigs :=
          c.module_name_qconfigs ++ es.map (fun p => ⟨p.1, p.2⟩) } := by
  induction es generalizing c with
  | nil => simp
  | cons p rest ih =>
    rw [List.foldl_cons, ih]
    simp [set_module_name, List.append_assoc]

/-- Repeated `set_module_name_object_type_order` calls append their entries in
call order and touch no other field. -/
theorem foldl_set_module_name_object_type_order {A : Type} (c : QConfigMapping A)
    (es : List (PyVal A × PyVal A × PyVal A × PyVal A)) :
    es.foldl (fun acc p => acc.set_module_name_object_type_order p.1 p.2.1 p.2.2.1 p.2.2.2) c =
      { c with module_name_object_type_order_qconfigs :=
          c.module_name_object_type_order_qconfigs ++
            es.map (fun p => ⟨p.1, p.2.1, p.2.2.1, p.2.2.2⟩) } := by
  induction es generalizing c with
  | nil => simp
  | cons p rest ih =>
    rw [List.foldl_cons, ih]
    simp [set_module_name_object_type_order, List.append_assoc]

/-- A tuple of the wrong arity anywhere in the iterated `object_type` list
makes the replay loop fail. -/
theorem addObjectTypeEntries_error {A : Type} (l t : List (PyVal A))
    (hmem : PyVal.tuple t ∈ l) (hlen : t.length ≠ 2) (c : QConfigMapping A) :
    ∃ e, addObjectTypeEntries l c = .error e := by
  induction l generalizing c with
  | nil => cases hmem
  | cons v rest ih =>
    rcases List.mem_cons.mp hmem with h | h
    · subst h
      rcases t with _ | ⟨a, _ | ⟨b, _ | ⟨x, t'⟩⟩⟩
      · exact ⟨_, rfl⟩
      · exact ⟨_, rfl⟩
      · exact absurd rfl hlen
      · exact ⟨_, rfl⟩
    · cases hv : pyUnpack2 v with
      | error e => exact ⟨e, by simp [addObjectTypeEntries, hv]⟩
      | ok p =>
        obtain ⟨a, b⟩ := p
        obtain ⟨e, he⟩ := ih h (c.set_object_type a b)
        exact ⟨e, by simp [addObjectTypeEntries, hv, he]⟩

/-- A tuple of the wrong arity anywhere in the iterated `module_name_regex`
list makes the replay loop fail. -/
theorem addModuleNameRegexEntries_error {A : Type} (l t : List (PyVal A))
    (hmem : PyVal.tuple t ∈ l) (hlen : t.length ≠ 2) (c : QConfigMapping A) :
    ∃ e, addModuleNameRegexEntries l c = .error e := by
  induction l generalizing c with
  | nil => cases hmem
  | cons v rest ih =>
    rcases List.mem_cons.mp hmem with h | h
    · subst h
      rcases t with _ | ⟨a, _ | ⟨b, _ | ⟨x, t'⟩⟩⟩
      · exact ⟨_, rfl⟩
      · exact ⟨_, rfl⟩
      · exact absurd rfl hlen
      · exact ⟨_, rfl⟩
    · cases hv : pyUnpack2 v with
      | error e => exact ⟨e, by simp [addModuleNameRegexEntries, hv]⟩
      | ok p =>
        obtain ⟨a, b⟩ := p
        obtain ⟨e, he⟩ := ih h (c.set_module_name_regex a b)
        exact ⟨e, by simp [addModuleNameRegexEntries, hv, he]⟩

/-- A tuple of the wrong arity anywhere in the iterated `module_name` list
makes the replay loop fail. -/
theorem addModuleNameEntries_error {A : Type} (l t : List (PyVal A))
    (hmem : PyVal.tuple t ∈ l) (hlen : t.length ≠ 2) (c : QConfigMapping A) :
    ∃ e, addModuleNameEntries l c = .error e := by
  induction l generalizing c with
  | nil => cases hmem
  | cons v rest ih =>
    rcases List.mem_cons.mp hmem with h | h
    · subst h
      rcases t with _ | ⟨a, _ | ⟨b, _ | ⟨x, t'⟩⟩⟩
      · exact ⟨_, rfl⟩
      · exact ⟨_, rfl⟩
      · exact absurd rfl hlen
      · exact ⟨_, rfl⟩
    · cases hv : pyUnpack2 v with
      | error e => exact ⟨e, by simp [addModuleNameEntries, hv]⟩
      | ok p =>
        obtain ⟨a, b⟩ := p
        obtain ⟨e, he⟩ := ih h (c.set_module_name a b)
        exact ⟨e, by simp [addModuleNameEntries, hv, he]⟩

/-- A tuple of arity other than four anywhere in the iterated
`module_name_object_type_order` list makes the replay loop fail. -/
theorem addModuleNameObjectTypeOrderEntries_error {A : Type} (l t : List (PyVal A))
    (hmem : PyVal.tuple t ∈ l) (hlen : t.length ≠ 4) (c : QConfigMapping A) :
    ∃ e, addModuleNameObjectTypeOrderEntries l c = .error e := by
  induction l generalizing c with
  | nil => cases hmem
  | cons v rest ih =>
    rcases List.mem_cons.mp hmem with h | h
    · subst h
      rcases t with _ | ⟨a, _ | ⟨b, _ | ⟨x, _ | ⟨y, _ | ⟨z, t'⟩⟩⟩⟩⟩
      · exact ⟨_, rfl⟩
      · exact ⟨_, rfl⟩
      · exact ⟨_, rfl⟩
      · exact ⟨_, rfl⟩
      · exact absurd rfl hlen
      · exact ⟨_, rfl⟩
    · cases hv : pyUnpack4 v with
      | error e => exact ⟨e, by simp [addModuleNameObjectTypeOrderEntries, hv]⟩
      | ok p =>
        obtain ⟨a, b, x, y⟩ := p
        obtain ⟨e, he⟩ := ih h (c.set_module_name_object_type_order a b x y)
        exact ⟨e, by simp [addModuleNameObjectTypeOrderEntries, hv, he]⟩

end QConfigMapping

/-! ### Claim theorems -/

open QConfigMapping

/-- C1: for every registry R (any global value and any sequences of entries
appended to the four lists), `from_dict (to_dict R)` produces a registry
whose global value and four entry lists are element-wise and order-wise
identical to R's (the three vestigial mypy-only dict attributes of the
result are empty, as they are in every reachable registry). -/
theorem spec_C1 {A : Type} (c : QConfigMapping A) :
    QConfigMapping.from_dict c.to_dict = Except.ok
      { global_qconfig := c.global_qconfig
        object_type_qconfigs := c.object_type_qconfigs
        module_name_regex_qconfigs := c.module_name_regex_qconfigs
        module_name_qconfigs := c.module_name_qconfigs
        module_name_object_type_order_qconfigs := c.module_name_object_type_order_qconfigs
        _object_type_qconfig_dict := []
        _module_name_regex_qconfig_dict := []
        _module_name_qconfig_dict := [] } := by
  simp [from_dict, bind, Except.bind, pure, Except.pure, to_dict, dictContains, dictGetD,
    List.find?, GLOBAL_DICT_KEY, OBJECT_TYPE_DICT_KEY, MODULE_NAME_REGEX_DICT_KEY,
    MODULE_NAME_DICT_KEY, MODULE_NAME_OBJECT_TYPE_ORDER_DICT_KEY,
    pyIter, addObjectTypeEntries_map_toTuple, addModuleNameRegexEntries_map_toTuple,
    addModuleNameEntries_map_toTuple, addModuleNameObjectTypeOrderEntries_map_toTuple,
    set_global, init]

/-- C2: for each of the four append-style setters, calling the setter twice
with the same key fields but different configs yields a list containing two
entries, both present, in call order; nothing is deduplicated, removed, or
updated in place. -/
theorem spec_C2 {A : Type} (c : QConfigMapping A) (k q1 q2 n o i : PyVal A) :
    ((c.set_object_type k q1).set_object_type k q2).object_type_qconfigs
        = c.object_type_qconfigs ++ [⟨k, q1⟩, ⟨k, q2⟩]
  ∧ ((c.set_module_name_regex k q1).set_module_name_regex k q2).module_name_regex_qconfigs
        = c.module_name_regex_qconfigs ++ [⟨k, q1⟩, ⟨k, q2⟩]
  ∧ ((c.set_module_name k q1).set_module_name k q2).module_name_qconfigs
        = c.module_name_qconfigs ++ [⟨k, q1⟩, ⟨k, q2⟩]
  ∧ ((c.set_module_name_object_type_order n o i q1).set_module_name_object_type_order
        n o i q2).module_name_object_type_order_qconfigs
        = c.module_name_object_type_order_qconfigs ++ [⟨n, o, i, q1⟩, ⟨n, o, i, q2⟩] := by
  refine ⟨?_, ?_, ?_, ?_⟩ <;>
    simp [set_object_type, set_module_name_regex, set_module_name,
      set_module_name_object_type_order, List.append_assoc]

/-- C3: appending entries E1, ..., En to any one category (via repeated
calls of that category's setter, in that order) makes `to_dict` yield those
entries in the corresponding output list in exactly that order, after any
entries already present, with no sorting or reordering by specificity. -/
theorem spec_C3 {A : Type} (c : QConfigMapping A) (es1 es2 es3 : List (PyVal A × PyVal A))
    (es4 : List (PyVal A × PyVal A × PyVal A × PyVal A)) :
    dictGetD (es1.foldl (fun acc p => acc.set_object_type p.1 p.2) c).to_dict
        OBJECT_TYPE_DICT_KEY (.list [])
      = .list ((c.object_type_qconfigs ++
          es1.map (fun p => (⟨p.1, p.2⟩ : QConfigObjectTypeEntry A))).map
          QConfigObjectTypeEntry.toTuple)
  ∧ dictGetD (es2.foldl (fun acc p => acc.set_module_name_regex p.1 p.2) c).to_dict
        MODULE_NAME_REGEX_DICT_KEY (.list [])
      = .list ((c.module_name_regex_qconfigs ++
          es2.map (fun p => (⟨p.1, p.2⟩ : QConfigModuleNameRegexEntry A))).map
          QConfigModuleNameRegexEntry.toTuple)
  ∧ dictGetD (es3.foldl (fun acc p => acc.set_module_name p.1 p.2) c).to_dict
        MODULE_NAME_DICT_KEY (.list [])
      = .list ((c.module_name_qconfigs ++
          es3.map (fun p => (⟨p.1, p.2⟩ : QConfigModuleNameEntry A))).map
          QConfigModuleNameEntry.toTuple)
  ∧ dictGetD (es4.foldl
        (fun acc p => acc.set_module_name_object_type_order p.1 p.2.1 p.2.2.1 p.2.2.2) c).to_dict
        MODULE_NAME_OBJECT_TYPE_ORDER_DICT_KEY (.list [])
      = .list ((c.module_name_object_type_order_qconfigs ++
          es4.map (fun p =>
            (⟨p.1, p.2.1, p.2.2.1, p.2.2.2⟩ : QConfigModuleNameObjectTypeOrderEntry A))).map
          QConfigModuleNameObjectTypeOrderEntry.toTuple) := by
  refine ⟨?_, ?_, ?_, ?_⟩
  · rw [foldl_set_object_type]; rfl
  · rw [foldl_set_module_name_regex]; rfl
  · rw [foldl_set_module_name]; rfl
  · rw [foldl_set_module_name_object_type_order]; rfl

/-- C4: `to_dict`'s result always contains all five keys; each list value is
the sequence of fixed-arity tuples of the corresponding entries, the tuple
fields being the entry's attributes in declaration order with the config
last; the global key's value is the raw `global_qconfig`, which is `None`
exactly when the global config was never set. -/
theorem spec_C4 {A : Type} (c : QConfigMapping A) :
    (dictContains c.to_dict GLOBAL_DICT_KEY = true
      ∧ dictContains c.to_dict OBJECT_TYPE_DICT_KEY = true
      ∧ dictContains c.to_dict MODULE_NAME_REGEX_DICT_KEY = true
      ∧ dictContains c.to_dict MODULE_NAME_DICT_KEY = true
      ∧ dictContains c.to_dict MODULE_NAME_OBJECT_TYPE_ORDER_DICT_KEY = true)
  ∧ dictGetD c.to_dict GLOBAL_DICT_KEY .none = c.global_qconfig
  ∧ (QConfigMapping.init : QConfigMapping A).global_qconfig = PyVal.none
  ∧ dictGetD c.to_dict OBJECT_TYPE_DICT_KEY (.list [])
      = .list (c.object_type_qconfigs.map QConfigObjectTypeEntry.toTuple)
  ∧ dictGetD c.to_dict MODULE_NAME_REGEX_DICT_KEY (.list [])
      = .list (c.module_name_regex_qconfigs.map QConfigModuleNameRegexEntry.toTuple)
  ∧ dictGetD c.to_dict MODULE_NAME_DICT_KEY (.list [])
      = .list (c.module_name_qconfigs.map QConfigModuleNameEntry.toTuple)
  ∧ dictGetD c.to_dict MODULE_NAME_OBJECT_TYPE_ORDER_DICT_KEY (.list [])
      = .list (c.module_name_object_type_order_qconfigs.map
          QConfigModuleNameObjectTypeOrderEntry.toTuple)
  ∧ (∀ e : QConfigObjectTypeEntry A, e.toTuple = .tuple [e.object_type, e.qconfig])
  ∧ (∀ e : QConfigModuleNameRegexEntry A, e.toTuple = .tuple [e.module_name_regex, e.qconfig])
  ∧ (∀ e : QConfigModuleNameEntry A, e.toTuple = .tuple [e.module_name, e.qconfig])
  ∧ (∀ e : QConfigModuleNameObjectTypeOrderEntry A,
        e.toTuple = .tuple [e.module_name, e.object_type, e.index, e.qconfig]) :=
  ⟨⟨rfl, rfl, rfl, rfl, rfl⟩, rfl, rfl, rfl, rfl, rfl, rfl,
    fun _ => rfl, fun _ => rfl, fun _ => rfl, fun _ => rfl⟩

/-- C5: calling `set_global A` and then `set_global B` on any registry
leaves B as the only effective global config: A is discarded, not appended,
and no other field of the registry changes. -/
theorem spec_C5 {A : Type} (c : QConfigMapping A) (a b : PyVal A) :
    (c.set_global a).set_global b = c.set_global b
  ∧ ((c.set_global a).set_global b).global_qconfig = b
  ∧ ((c.set_global a).set_global b).object_type_qconfigs = c.object_type_qconfigs
  ∧ ((c.set_global a).set_global b).module_name_regex_qconfigs = c.module_name_regex_qconfigs
  ∧ ((c.set_global a).set_global b).module_name_qconfigs = c.module_name_qconfigs
  ∧ ((c.set_global a).set_global b).module_name_object_type_order_qconfigs
      = c.module_name_object_type_order_qconfigs
  ∧ ((c.set_global a).set_global b)._object_type_qconfig_dict = c._object_type_qconfig_dict
  ∧ ((c.set_global a).set_global b)._module_name_regex_qconfig_dict
      = c._module_name_regex_qconfig_dict
  ∧ ((c.set_global a).set_global b)._module_name_qconfig_dict = c._module_name_qconfig_dict :=
  ⟨rfl, rfl, rfl, rfl, rfl, rfl, rfl, rfl, rfl⟩

/-- C6: `from_dict` applied to the empty mapping produces a registry with an
unset global config (`None`) and every entry category empty. -/
theorem spec_C6 {A : Type} :
    QConfigMapping.from_dict ([] : PyDict A) = Except.ok
      { global_qconfig := .none
        object_type_qconfigs := []
        module_name_regex_qconfigs := []
        module_name_qconfigs := []
        module_name_object_type_order_qconfigs := []
        _object_type_qconfig_dict := []
        _module_name_regex_qconfig_dict := []
        _module_name_qconfig_dict := [] } := rfl

/-- C7: two input mappings that agree on presence and value of the five
recognized keys produce identical `from_dict` results, whatever other
unknown keys each contains: unknown keys are ignored. -/
theorem spec_C7 {A : Type} (d1 d2 : PyDict A)
    (hg : dictContains d1 GLOBAL_DICT_KEY = dictContains d2 GLOBAL_DICT_KEY)
    (hgv : dictGetD d1 GLOBAL_DICT_KEY .none = dictGetD d2 GLOBAL_DICT_KEY .none)
    (h1 : dictGetD d1 OBJECT_TYPE_DICT_KEY (.list [])
        = dictGetD d2 OBJECT_TYPE_DICT_KEY (.list []))
    (h2 : dictGetD d1 MODULE_NAME_REGEX_DICT_KEY (.list [])
        = dictGetD d2 MODULE_NAME_REGEX_DICT_KEY (.list []))
    (h3 : dictGetD d1 MODULE_NAME_DICT_KEY (.list [])
        = dictGetD d2 MODULE_NAME_DICT_KEY (.list []))
    (h4 : dictGetD d1 MODULE_NAME_OBJECT_TYPE_ORDER_DICT_KEY (.list [])
        = dictGetD d2 MODULE_NAME_OBJECT_TYPE_ORDER_DICT_KEY (.list [])) :
    QConfigMapping.from_dict d1 = QConfigMapping.from_dict d2 := by
  unfold QConfigMapping.from_dict
  rw [hg, hgv, h1, h2, h3, h4]

/-- Witness for C7: two concrete mappings agreeing on the five recognized
keys but carrying different unknown keys yield the same registry. -/
theorem spec_C7_witness :
    QConfigMapping.from_dict
        ([(GLOBAL_DICT_KEY, PyVal.atom 7),
          (OBJECT_TYPE_DICT_KEY, PyVal.list [PyVal.tuple [PyVal.str "Linear", PyVal.atom 1]]),
          ("mystery_extra_key", PyVal.int 3)] : PyDict Nat)
      = QConfigMapping.from_dict
        [("another_unknown", PyVal.str "x"),
         (GLOBAL_DICT_KEY, PyVal.atom 7),
         (OBJECT_TYPE_DICT_KEY, PyVal.list [PyVal.tuple [PyVal.str "Linear", PyVal.atom 1]])] :=
  spec_C7 _ _ rfl rfl rfl rfl rfl rfl

/-- C8: if one of the four list-valued keys holds a list containing a tuple
of incorrect arity (other than 2 for the three pair categories, other than
4 for `module_name_object_type_order`), `from_dict` fails with a
destructuring error at the unpacking site rather than returning a
registry. -/
theorem spec_C8 {A : Type} (d : PyDict A) (t l : List (PyVal A)) :
    (dictGetD d OBJECT_TYPE_DICT_KEY (.list []) = .list l → PyVal.tuple t ∈ l →
      t.length ≠ 2 → ∃ e, QConfigMapping.from_dict d = Except.error e)
  ∧ (dictGetD d MODULE_NAME_REGEX_DICT_KEY (.list []) = .list l → PyVal.tuple t ∈ l →
      t.length ≠ 2 → ∃ e, QConfigMapping.from_dict d = Except.error e)
  ∧ (dictGetD d MODULE_NAME_DICT_KEY (.list []) = .list l → PyVal.tuple t ∈ l →
      t.length ≠ 2 → ∃ e, QConfigMapping.from_dict d = Except.error e)
  ∧ (dictGetD d MODULE_NAME_OBJECT_TYPE_ORDER_DICT_KEY (.list []) = .list l →
      PyVal.tuple t ∈ l →
      t.length ≠ 4 → ∃ e, QConfigMapping.from_dict d = Except.error e) := by
  refine ⟨?_, ?_, ?_, ?_⟩ <;> intro hget hmem hlen
  · simp only [QConfigMapping.from_dict, bind, hget, pyIter, except_bind_ok]
    apply exists_error_bind_left
    exact addObjectTypeEntries_error l t hmem hlen _
  · simp only [QConfigMapping.from_dict, bind, hget, pyIter, except_bind_ok]
    apply exists_error_bind
    intro items1
    apply exists_error_bind
    intro c2
    apply exists_error_bind_left
    exact addModuleNameRegexEntries_error l t hmem hlen _
  · simp only [QConfigMapping.from_dict, bind, hget, pyIter, except_bind_ok]
    apply exists_error_bind
    intro items1
    apply exists_error_bind
    intro c2
    apply exists_error_bind
    intro items2
    apply exists_error_bind
    intro c3
    apply exists_error_bind_left
    exact addModuleNameEntries_error l t hmem hlen _
  · simp only [QConfigMapping.from_dict, bind, hget, pyIter, except_bind_ok]
    apply exists_error_bind
    intro items1
    apply exists_error_bind
    intro c2
    apply exists_error_bind
    intro items2
    apply exists_error_bind
    intro c3
    apply exists_error_bind
    intro items3
    apply exists_error_bind
    intro c4
    apply exists_error_bind_left
    exact addModuleNameObjectTypeOrderEntries_error l t hmem hlen _

/-- Witness for C8: a concrete mapping whose `object_type` list holds a
one-element tuple makes `from_dict` fail. -/
theorem spec_C8_witness :
    ∃ e, QConfigMapping.from_dict
        ([(OBJECT_TYPE_DICT_KEY, PyVal.list [PyVal.tuple [PyVal.atom 1]])] : PyDict Nat)
      = Except.error e :=
  (spec_C8 _ [PyVal.atom 1] [PyVal.tuple [PyVal.atom 1]]).1 rfl
    (List.mem_cons_self _ _) (by decide)

/-- C9: every setter returns the (updated) registry itself so calls can be
chained, modifies only its own category's field while leaving every other
field unchanged, and is a total function of its well-typed inputs. The last
conjunct exercises fluent construction of a registry in one expression. -/
theorem spec_C9 {A : Type} (c : QConfigMapping A) (g k q n o i : PyVal A) :
    ((c.set_global g).global_qconfig = g
      ∧ (c.set_global g).object_type_qconfigs = c.object_type_qconfigs
      ∧ (c.set_global g).module_name_regex_qconfigs = c.module_name_regex_qconfigs
      ∧ (c.set_global g).module_name_qconfigs = c.module_name_qconfigs
      ∧ (c.set_global g).module_name_object_type_order_qconfigs
          = c.module_name_object_type_order_qconfigs
      ∧ (c.set_global g)._object_type_qconfig_dict = c._object_type_qconfig_dict
      ∧ (c.set_global g)._module_name_regex_qconfig_dict = c._module_name_regex_qconfig_dict
      ∧ (c.set_global g)._module_name_qconfig_dict = c._module_name_qconfig_dict)
  ∧ ((c.set_object_type k q).object_type_qconfigs = c.object_type_qconfigs ++ [⟨k, q⟩]
      ∧ (c.set_object_type k q).global_qconfig = c.global_qconfig
      ∧ (c.set_object_type k q).module_name_regex_qconfigs = c.module_name_regex_qconfigs
      ∧ (c.set_object_type k q).module_name_qconfigs = c.module_name_qconfigs
      ∧ (c.set_object_type k q).module_name_object_type_order_qconfigs
          = c.module_name_object_type_order_qconfigs
      ∧ (c.set_object_type k q)._object_type_qconfig_dict = c._object_type_qconfig_dict
      ∧ (c.set_object_type k q)._module_name_regex_qconfig_dict
          = c._module_name_regex_qconfig_dict
      ∧ (c.set_object_type k q)._module_name_qconfig_dict = c._module_name_qconfig_dict)
  ∧ ((c.set_module_name_regex k q).module_name_regex_qconfigs
          = c.module_name_regex_qconfigs ++ [⟨k, q⟩]
      ∧ (c.set_module_name_regex k q).global_qconfig = c.global_qconfig
      ∧ (c.set_module_name_regex k q).object_type_qconfigs = c.object_type_qconfigs
      ∧ (c.set_module_name_regex k q).module_name_qconfigs = c.module_name_qconfigs
      ∧ (c.set_module_name_regex k q).module_name_object_type_order_qconfigs
          = c.module_name_object_type_order_qconfigs
      ∧ (c.set_module_name_regex k q)._object_type_qconfig_dict = c._object_type_qconfig_dict
      ∧ (c.set_module_name_regex k q)._module_name_regex_qconfig_dict
          = c._module_name_regex_qconfig_dict
      ∧ (c.set_module_name_regex k q)._module_name_qconfig_dict = c._module_name_qconfig_dict)
  ∧ ((c.set_module_name k q).module_name_qconfigs = c.module_name_qconfigs ++ [⟨k, q⟩]
      ∧ (c.set_module_name k q).global_qconfig = c.global_qconfig
      ∧ (c.set_module_name k q).object_type_qconfigs = c.object_type_qconfigs
      ∧ (c.set_module_name k q).module_name_regex_qconfigs = c.module_name_regex_qconfigs
      ∧ (c.set_module_name k q).module_name_object_type_order_qconfigs
          = c.module_name_object_type_order_qconfigs
      ∧ (c.set_module_name k q)._object_type_qconfig_dict = c._object_type_qconfig_dict
      ∧ (c.set_module_name k q)._module_name_regex_qconfig_dict
          = c._module_name_regex_qconfig_dict
      ∧ (c.set_module_name k q)._module_name_qconfig_dict = c._module_name_qconfig_dict)
  ∧ ((c.set_module_name_object_type_order n o i q).module_name_object_type_order_qconfigs
          = c.module_name_object_type_order_qconfigs ++ [⟨n, o, i, q⟩]
      ∧ (c.set_module_name_object_type_order n o i q).global_qconfig = c.global_qconfig
      ∧ (c.set_module_name_object_type_order n o i q).object_type_qconfigs
          = c.object_type_qconfigs
      ∧ (c.set_module_name_object_type_order n o i q).module_name_regex_qconfigs
          = c.module_name_regex_qconfigs
      ∧ (c.set_module_name_object_type_order n o i q).module_name_qconfigs
          = c.module_name_qconfigs
      ∧ (c.set_module_name_object_type_order n o i q)._object_type_qconfig_dict
          = c._object_type_qconfig_dict
      ∧ (c.set_module_name_object_type_order n o i q)._module_name_regex_qconfig_dict
          = c._module_name_regex_qconfig_dict
      ∧ (c.set_module_name_object_type_order n o i q)._module_name_qconfig_dict
          = c._module_name_qconfig_dict)
  ∧ ((((QConfigMapping.init.set_global g).set_object_type k q).set_module_name_regex
        k q).set_module_name k q).set_module_name_object_type_order n o i q
      = { global_qconfig := g
          object_type_qconfigs := [⟨k, q⟩]
          module_name_regex_qconfigs := [⟨k, q⟩]
          module_name_qconfigs := [⟨k, q⟩]
          module_name_object_type_order_qconfigs := [⟨n, o, i, q⟩]
          _object_type_qconfig_dict := []
          _module_name_regex_qconfig_dict := []
          _module_name_qconfig_dict := [] } :=
  ⟨⟨rfl, rfl, rfl, rfl, rfl, rfl, rfl, rfl⟩,
   ⟨rfl, rfl, rfl, rfl, rfl, rfl, rfl, rfl⟩,
   ⟨rfl, rfl, rfl, rfl, rfl, rfl, rfl, rfl⟩,
   ⟨rfl, rfl, rfl, rfl, rfl, rfl, rfl, rfl⟩,
   ⟨rfl, rfl, rfl, rfl, rfl, rfl, rfl, rfl⟩, rfl⟩

/-- C10: `to_dict` is a pure observer.  In the state-passing rendering of
the method call, the receiver after the call equals the receiver before it,
the returned dictionary is `to_dict` of the receiver, and calling it again
on the post-state registry returns the same dictionary. -/
theorem spec_C10 {A : Type} (c : QConfigMapping A) :
    c.to_dict_st.2 = c
  ∧ c.to_dict_st.1 = c.to_dict
  ∧ (c.to_dict_st.2.to_dict_st).1 = c.to_dict_st.1 :=
  ⟨rfl, rfl, rfl⟩
